import Mathlib

/-!
Verification of the session/transport lifecycle layer of the
mcp-weather-server repository (`src/index.ts`), as described by its
specification.

The Express router, the session registry (`transports`), the shutdown
handler and the weather tool functions are embedded shallowly below.
Behavior of the protocol SDK (`StreamableHTTPServerTransport`,
`isInitializeRequest`, zod validation) that is not part of the
repository source is modelled from the spec and marked as such.
-/

namespace WeatherServer

/-- A per-session transport object.  `tid` is an identity tag that lets the
model speak about "the same Transport"; `sessionId` mirrors the
`transport.sessionId` field read by the `onclose` handler; `closed` mirrors
the lifecycle state. -/
structure Transport where
  tid : Nat
  sessionId : Option String
  closed : Bool
deriving Repr, DecidableEq

/-- The process-wide registry `const transports: Record<string,
StreamableHTTPServerTransport> = {}` from `index.ts`, as an association
list from session identifier to Transport. -/
abbrev Registry := List (String × Transport)

/-- Server state: the registry together with a counter supplying fresh
transport identities and the consumption index of the random-id stream. -/
structure ServerState where
  reg : Registry
  nextTid : Nat
  genIdx : Nat
deriving Repr, DecidableEq

/-- The initial state: empty registry. -/
def st0 : ServerState := ⟨[], 0, 0⟩

/-- An HTTP response as far as the claims need it: status code, the
JSON-RPC error code of the body (if the route wrote one), the
`Mcp-Session-Id` response header (if set), and the identity of the
Transport whose `handleRequest` produced the response (if any). -/
structure HttpResp where
  status : Nat
  rpcErrorCode : Option Int
  sessionHeader : Option String
  handledBy : Option Nat
deriving Repr, DecidableEq

/-- `res.status(400).json({ jsonrpc: "2.0", error: { code: -32000, message:
"Bad Request" }, id: null })` from the POST route. -/
def badRequestJson : HttpResp := ⟨400, some (-32000), none, none⟩

/-- `res.status(400).send("Invalid")` from the GET and DELETE routes. -/
def invalidText : HttpResp := ⟨400, none, none, none⟩

/-- `res.status(500).json({ jsonrpc: "2.0", error: { code: -32603, message:
"Error" }, id: null })` from the POST route's catch block. -/
def internalJson : HttpResp := ⟨500, some (-32603), none, none⟩

/-- A JSON-RPC message body, abstracted to the one structural feature the
router inspects. -/
structure Body where
  method : String
deriving Repr, DecidableEq

/-- Modelled from the spec: the SDK's `isInitializeRequest(req.body)` —
"The "initialize" method is distinguished structurally".  (The SDK source
is not part of this repository.) -/
def isInitializeRequest (b : Body) : Bool := b.method == "initialize"

/-- JavaScript truthiness of the `string | undefined` read from
`req.headers["mcp-session-id"]`: `undefined` and the empty string are
falsy, every other string truthy. -/
def jsTruthy : Option String → Bool
  | none => false
  | some s => !(s == "")

/-- The string value of the header when it is indexed into the registry
(`transports[sessionId]`); only reached on truthy headers. -/
def hdrVal : Option String → String
  | none => ""
  | some s => s

/-- The property names `transports` inherits from `Object.prototype`:
`transports` is the object literal `{}` (not a null-prototype object or a
`Map`), so indexing it with any of these strings yields an inherited
function or object — a truthy value — even when no such session is
registered. -/
def protoKeys : List String :=
  ["constructor", "hasOwnProperty", "isPrototypeOf", "propertyIsEnumerable",
   "toLocaleString", "toString", "valueOf", "__proto__",
   "__defineGetter__", "__defineSetter__", "__lookupGetter__", "__lookupSetter__"]

/-- Is `s` one of the inherited `Object.prototype` property names? -/
def protoKey (s : String) : Bool := protoKeys.contains s

/-- JavaScript truthiness of `transports[sid]`: an own (registered) key
yields the Transport object (truthy); an unregistered key that names an
inherited `Object.prototype` property yields that inherited function or
object (also truthy); any other key yields `undefined` (falsy). -/
def registryHit (reg : Registry) (sid : String) : Bool :=
  (List.lookup sid reg).isSome || protoKey sid

/-- Modelled from the spec: fresh-identifier generation with local
recovery from collision.  `gen` is the stream of ids produced by
`randomUUID()`; an id already present in the registry would mean
"session already exists" and is answered by regenerating
(`CollisionError` — recovered locally by regenerating an identifier;
never surfaced).  Fuel bounds the retries; with an injective stream,
fuel `reg.length + 1` always suffices (see `genFresh_injective_isSome`). -/
def genFresh (gen : Nat → String) (reg : Registry) : Nat → Nat → Option (String × Nat)
  | _, 0 => none
  | k, fuel + 1 =>
      if (List.lookup (gen k) reg).isSome then genFresh gen reg (k + 1) fuel
      else some (gen k, k + 1)

/-- The `else if (!sessionId && isInitializeRequest(req.body))` branch of
the POST route: construct a `StreamableHTTPServerTransport` whose
`onsessioninitialized` callback stores it as `transports[sid] = transport`,
connect a server, and let it handle the initialize request, which
(modelled from the spec) performs the handshake and returns the new
session identifier in the `Mcp-Session-Id` response header. -/
def initBranch (gen : Nat → String) (st : ServerState) : HttpResp × ServerState :=
  match genFresh gen st.reg st.genIdx (st.reg.length + 1) with
  | none => (internalJson, st)
  | some (sid, k') =>
      let t : Transport := ⟨st.nextTid, some sid, false⟩
      (⟨200, none, some sid, some t.tid⟩,
       ⟨(sid, t) :: st.reg, st.nextTid + 1, k'⟩)

/-- The `app.post("/mcp", ...)` route from `index.ts`:
`if (sessionId && transports[sessionId])` delegate to that transport;
`else if (!sessionId && isInitializeRequest(req.body))` create a session;
`else` respond 400 with the JSON-RPC `-32000` body.  The first guard is
truthiness of `transports[sessionId]` (`registryHit`): on a registered
key the delegated `handleRequest` is modelled as succeeding (its
fault-injected variant is `postMcpFault`); on an unregistered key naming
an inherited `Object.prototype` property the "transport" is the
inherited function/object, calling `handleRequest` on it throws a
`TypeError` inside the route's `try`, and the catch answers 500 with the
`-32603` body (no headers have been sent). -/
def postMcp (gen : Nat → String) (st : ServerState) (hdr : Option String)
    (body : Body) : HttpResp × ServerState :=
  if jsTruthy hdr && registryHit st.reg (hdrVal hdr) then
    match List.lookup (hdrVal hdr) st.reg with
    | some t => (⟨200, none, none, some t.tid⟩, st)
    | none => (internalJson, st)
  else if !jsTruthy hdr && isInitializeRequest body then
    initBranch gen st
  else
    (badRequestJson, st)

/-- The `transport.onclose` handler from `index.ts`:
`const sid = transport.sessionId; if (sid && transports[sid]) delete
transports[sid];`.  The guard here is the same truthy `transports[sid]`
access, but the result is insensitive to the prototype chain: for an
unregistered `sid` naming an inherited property the guard is truthy, yet
`delete transports[sid]` only removes own properties, so the registry is
unchanged — exactly what the lookup-guarded model returns in that case
as well. -/
def oncloseEvict (st : ServerState) (sid? : Option String) : ServerState :=
  match sid? with
  | none => st
  | some sid =>
      if sid = "" then st
      else if (List.lookup sid st.reg).isSome then
        ⟨st.reg.filter (fun p => !(p.1 == sid)), st.nextTid, st.genIdx⟩
      else st

/-- The `app.get("/mcp", ...)` route: `if (!sid || !transports[sid])`
respond 400 `"Invalid"`, else delegate to the transport.  On an
unregistered key naming an inherited `Object.prototype` property the
guard passes and `handleRequest` is called on the inherited non-transport
value; the `TypeError` escapes the handler — there is no `try`/`catch` —
and no response is written (`.error ()`). -/
def getMcp (st : ServerState) (hdr : Option String) :
    Except Unit (HttpResp × ServerState) :=
  if !jsTruthy hdr || !registryHit st.reg (hdrVal hdr) then
    .ok (invalidText, st)
  else
    match List.lookup (hdrVal hdr) st.reg with
    | some t => .ok (⟨200, none, none, some t.tid⟩, st)
    | none => .error ()

/-- The `app.delete("/mcp", ...)` route: `if (!sid || !transports[sid])`
respond 400 `"Invalid"`, else delegate to the transport, which (modelled
from the spec) closes the session; its `onclose` callback then evicts the
identifier.  As in `getMcp`, an unregistered inherited-property key
passes the guard and the `TypeError` escapes unhandled (`.error ()`). -/
def deleteMcp (st : ServerState) (hdr : Option String) :
    Except Unit (HttpResp × ServerState) :=
  if !jsTruthy hdr || !registryHit st.reg (hdrVal hdr) then
    .ok (invalidText, st)
  else
    match List.lookup (hdrVal hdr) st.reg with
    | some t => .ok (⟨200, none, none, some t.tid⟩, oncloseEvict st t.sessionId)
    | none => .error ()

/-- A concrete injective stream of non-empty identifiers, standing in for
`randomUUID()` in witnesses. -/
def gen0 (n : Nat) : String := String.mk (List.replicate (n + 1) 'a')

/-- An initialize body. -/
def initBody : Body := ⟨"initialize"⟩

/-- A non-initialize body. -/
def callBody : Body := ⟨"tools/call"⟩

/-- The outcome of awaiting `transport.handleRequest(req, res)`: the
normal return, or a thrown error / rejected promise. -/
abbrev CallOutcome := Except Unit Unit

/-- The POST route with the outcome of the awaited transport call
injected.  The whole route body runs inside
`try { ... } catch (e) { console.error("[MCP]", e); if (!res.headersSent)
res.status(500).json({ ... code: -32603 ... }); }`, so a fault never
escapes the handler: the result is always `.ok`.  The written response is
`some r` (`none` when the catch block found headers already sent and
wrote nothing further).  On a fault in the initialize branch the model
keeps the pre-state; C5 does not inspect the state. -/
def postMcpFault (hr : CallOutcome) (headersSent : Bool) (gen : Nat → String)
    (st : ServerState) (hdr : Option String) (body : Body) :
    Except Unit (Option HttpResp × ServerState) :=
  if jsTruthy hdr && (List.lookup (hdrVal hdr) st.reg).isSome then
    match List.lookup (hdrVal hdr) st.reg, hr with
    | some t, .ok _ => .ok (some ⟨200, none, none, some t.tid⟩, st)
    | _, .error _ => .ok ((if headersSent then none else some internalJson), st)
    | none, .ok _ => .ok (some badRequestJson, st)
  else if !jsTruthy hdr && isInitializeRequest body then
    match hr with
    | .ok _ => .ok (some (initBranch gen st).1, (initBranch gen st).2)
    | .error _ => .ok ((if headersSent then none else some internalJson), st)
  else
    .ok (some badRequestJson, st)

/-- The GET route with the transport call's outcome injected.  The route
body `async (req, res) => { ...; await transports[sid].handleRequest(req,
res); }` has no `try`/`catch`: a thrown fault leaves the handler as an
unhandled promise rejection (`.error`). -/
def getMcpFault (hr : CallOutcome) (st : ServerState) (hdr : Option String) :
    Except Unit (Option HttpResp × ServerState) :=
  if !jsTruthy hdr || (List.lookup (hdrVal hdr) st.reg).isNone then
    .ok (some invalidText, st)
  else
    match List.lookup (hdrVal hdr) st.reg, hr with
    | some t, .ok _ => .ok (some ⟨200, none, none, some t.tid⟩, st)
    | some _, .error e => .error e
    | none, _ => .ok (some invalidText, st)

/-- The DELETE route with the transport call's outcome injected; like the
GET route it has no `try`/`catch`. -/
def deleteMcpFault (hr : CallOutcome) (st : ServerState) (hdr : Option String) :
    Except Unit (Option HttpResp × ServerState) :=
  if !jsTruthy hdr || (List.lookup (hdrVal hdr) st.reg).isNone then
    .ok (some invalidText, st)
  else
    match List.lookup (hdrVal hdr) st.reg, hr with
    | some t, .ok _ => .ok (some ⟨200, none, none, some t.tid⟩, oncloseEvict st t.sessionId)
    | some _, .error e => .error e
    | none, _ => .ok (some invalidText, st)

/-- A state with one registered session `"aa"`. -/
def stOne : ServerState := ⟨[("aa", ⟨5, some "aa", false⟩)], 6, 2⟩

/-- The loop body of the `process.on("SIGINT", ...)` handler:
`for (const sid in transports) { try { await transports[sid].close(); }
catch {} delete transports[sid]; }`.  `closeResult` is each close call's
outcome; the function returns the identifiers on which a close was
attempted together with what remains of the registry. -/
def sigintLoop (closeResult : String → Except Unit Unit) :
    Registry → List String × Registry
  | [] => ([], [])
  | (sid, _) :: rest =>
      let attempted :=
        match closeResult sid with
        | .ok _ => sid
        | .error _ => sid
      let done := sigintLoop closeResult rest
      (attempted :: done.1, done.2)

/-- The whole SIGINT handler: run the loop over the registry, then
`process.exit(0)`; the final Bool marks that the exit is reached (only)
after the loop has completed. -/
def sigintHandler (closeResult : String → Except Unit Unit) (st : ServerState) :
    List String × ServerState × Bool :=
  let done := sigintLoop closeResult st.reg
  (done.1, ⟨done.2, st.nextTid, st.genIdx⟩, true)

/-! ### Tool dispatcher and argument schemas -/

/-- A JSON argument value, as far as the tool schemas distinguish
shapes: a string, a number (a wrong type for every declared field), or an
array of strings. -/
inductive Value where
  | vStr (s : String)
  | vNum (n : Int)
  | vArr (xs : List String)
deriving Repr, DecidableEq

/-- The zod shapes used by the tool registrations in `createServer`:
`z.string()`, `z.enum([...])`, `z.array(z.string()).min(lo).max(hi)`. -/
inductive FieldType where
  | str
  | strEnum (vals : List String)
  | strArray (lo hi : Nat)
deriving Repr, DecidableEq

/-- One named parameter of a tool schema; `dflt` models `.default(v)`
(applied when the argument is absent), `optional` models `.optional()`. -/
structure Field where
  name : String
  type : FieldType
  dflt : Option Value
  optional : Bool
deriving Repr, DecidableEq

/-- Does a present value satisfy the declared shape?  Enum membership and
array length bounds mirror `z.enum` and `.min`/`.max`. -/
def checkType : FieldType → Value → Bool
  | .str, .vStr _ => true
  | .strEnum vals, .vStr s => vals.contains s
  | .strArray lo hi, .vArr xs => lo ≤ xs.length && xs.length ≤ hi
  | _, _ => false

/-- Modelled from the spec: zod validation of one field — missing
required fields, wrong types, or values outside an enumerated set fail;
defaults are applied for omitted fields.  Returns the value the handler
will receive for the field (`none`: absent optional field). -/
def validateField (f : Field) : Option Value → Except String (Option Value)
  | none =>
      match f.dflt with
      | some d => .ok (some d)
      | none => if f.optional then .ok none else .error (f.name ++ ": required")
  | some v => if checkType f.type v then .ok (some v) else .error (f.name ++ ": invalid")

/-- Modelled from the spec: zod validation of a whole argument object
against a schema, producing the parsed arguments the handler receives. -/
def validateArgs : List Field → List (String × Value) →
    Except String (List (String × Value))
  | [], _ => .ok []
  | f :: fs, raw =>
      match validateField f (List.lookup f.name raw), validateArgs fs raw with
      | .error e, _ => .error e
      | .ok _, .error e => .error e
      | .ok none, .ok rest => .ok rest
      | .ok (some v), .ok rest => .ok ((f.name, v) :: rest)

/-- A tool registration: name, description, declared schema. -/
structure ToolDescr where
  name : String
  descr : String
  schema : List Field
deriving Repr, DecidableEq

/-- Modelled from the spec: the dispatcher's `invoke` — validate the raw
arguments against the declared schema; only on success run the handler on
the parsed arguments. -/
def invoke (d : ToolDescr) (handler : List (String × Value) → String)
    (raw : List (String × Value)) : Except String String :=
  match validateArgs d.schema raw with
  | .error e => .error ("InvalidArguments: " ++ e)
  | .ok parsed => .ok (handler parsed)

/-- `z.enum(["metric", "imperial", "standard"]).default("metric")`. -/
def unitsField : Field :=
  ⟨"units", .strEnum ["metric", "imperial", "standard"], some (.vStr "metric"), false⟩

/-- The eight `server.tool(...)` registrations of `createServer`. -/
def registeredTools : List ToolDescr :=
  [⟨"get_current_weather", "Get current weather for a city.",
    [⟨"city", .str, none, false⟩, unitsField, ⟨"lang", .str, some (.vStr "ru"), false⟩]⟩,
   ⟨"get_forecast", "Get 5-day forecast.",
    [⟨"city", .str, none, false⟩, unitsField, ⟨"lang", .str, some (.vStr "ru"), false⟩]⟩,
   ⟨"get_air_quality", "Get air quality.", [⟨"city", .str, none, false⟩]⟩,
   ⟨"get_multi_city_weather", "Get weather for multiple cities.",
    [⟨"cities", .strArray 1 10, none, false⟩, unitsField]⟩,
   ⟨"analyze_weather_trends", "Analyze weather trends.",
    [⟨"cities", .strArray 2 10, none, false⟩, unitsField,
     ⟨"language", .str, some (.vStr "ru"), false⟩]⟩,
   ⟨"save_weather_report", "Save report to file.",
    [⟨"content", .str, none, false⟩, ⟨"filename", .str, none, false⟩,
     ⟨"format", .strEnum ["markdown", "json"], some (.vStr "markdown"), false⟩]⟩,
   ⟨"run_weather_analysis_pipeline", "Run complete pipeline.",
    [⟨"cities", .strArray 2 10, none, false⟩, unitsField,
     ⟨"language", .str, some (.vStr "ru"), false⟩, ⟨"filename", .str, none, true⟩]⟩,
   ⟨"list_weather_reports", "List saved reports.", []⟩]

/-! ### Weather data functions -/

/-- The `CityWeatherData` record built by `getWeatherData`; numbers are
modelled as rationals. -/
structure CityWeatherData where
  city : String
  country : String
  temp : ℚ
  feels_like : ℚ
  humidity : ℚ
  pressure : ℚ
  wind_speed : ℚ
  descr : String
  clouds : ℚ
  visibility : ℚ
deriving Repr, DecidableEq

/-- `getMultiCityWeather(cities, units)` from `index.ts`:
`for (const city of cities) { try { results.push(await getWeatherData(city,
units)); } catch (e) { console.error(...); } } return results;`.
The external fetch `getWeatherData` is a parameter. -/
def getMultiCityWeather (fetchCity : String → Except Unit CityWeatherData) :
    List String → List CityWeatherData
  | [] => []
  | c :: cs =>
      match fetchCity c with
      | .ok d => d :: getMultiCityWeather fetchCity cs
      | .error _ => getMultiCityWeather fetchCity cs

/-- A fetch that fails for every city. -/
def fetchFail : String → Except Unit CityWeatherData := fun _ => .error ()

/-- The three quantities computed by the keyless branch of
`analyzeWeatherTrends`. -/
structure TrendSummary where
  hottest : CityWeatherData
  coldest : CityWeatherData
  avgTemp : ℚ
deriving Repr, DecidableEq

/-- The `if (!OPENROUTER_API_KEY)` branch of `analyzeWeatherTrends`:
`weatherData.reduce((a, b) => a.temp > b.temp ? a : b)`,
`weatherData.reduce((a, b) => a.temp < b.temp ? a : b)`, and
`weatherData.reduce((a, b) => a + b.temp, 0) / weatherData.length`.
JavaScript `Array.prototype.reduce` with no initial value folds the tail
with the first element as accumulator and throws a `TypeError` on an
empty array (modelled as `.error ()`). -/
def analyzeWeatherTrendsNoKey : List CityWeatherData → Except Unit TrendSummary
  | [] => .error ()
  | w :: ws =>
      .ok ⟨ws.foldl (fun a b => if a.temp > b.temp then a else b) w,
           ws.foldl (fun a b => if a.temp < b.temp then a else b) w,
           ((w :: ws).foldl (fun a b => a + b.temp) 0) / ((w :: ws).length : ℚ)⟩

/-- The `analyze_weather_trends` tool handler body with no OpenRouter key
configured: `analyzeWeatherTrends(await getMultiCityWeather(cities,
units), language)` — the possibly-empty fetch result is passed straight
in, with no non-emptiness check. -/
def analyzeTrendsTool (fetchCity : String → Except Unit CityWeatherData)
    (cities : List String) : Except Unit TrendSummary :=
  analyzeWeatherTrendsNoKey (getMultiCityWeather fetchCity cities)

/-! ### Report file paths -/

/-- The character class `[a-zA-Z0-9_-]` of the sanitizing regex in
`saveWeatherReport`. -/
def allowedChar (c : Char) : Bool :=
  ('a' ≤ c && c ≤ 'z') || ('A' ≤ c && c ≤ 'Z') || ('0' ≤ c && c ≤ '9') ||
    c == '_' || c == '-'

/-- `filename.replace(/[^a-zA-Z0-9_-]/g, "_")`. -/
def sanitizeFilename (s : String) : String :=
  String.mk (s.data.map (fun c => if allowedChar c then c else '_'))

/-- `new Date().toISOString().replace(/[:.]/g, "-")`, applied to the ISO
timestamp string. -/
def sanitizeTimestamp (s : String) : String :=
  String.mk (s.data.map (fun c => if c == ':' || c == '.' then '-' else c))

/-- `DATA_DIR = path.join(process.cwd(), "data", "reports")` (relative to
the process working directory). -/
def DATA_DIR : String := "data/reports"

/-- The base name `${sanitized}_${timestamp}${ext}` of the written file,
with `ext = format === "json" ? ".json" : ".md"`. -/
def reportBaseName (filename isoTs format : String) : String :=
  sanitizeFilename filename ++ "_" ++ sanitizeTimestamp isoTs ++
    (if format == "json" then ".json" else ".md")

/-- The file path returned by `saveWeatherReport(content, filename,
format)`: `path.join(DATA_DIR, base)`; the base name contains no path
separator and is not `.`/`..` (proved in C9), so `path.join` is plain
concatenation with one separator.  The path does not depend on
`content`. -/
def saveWeatherReportPath (content filename isoTs format : String) : String :=
  let _ := content
  DATA_DIR ++ "/" ++ reportBaseName filename isoTs format

/-! ### Registry lemmas -/

theorem lookup_filter_ne_self (reg : Registry) (sid : String) :
    List.lookup sid (reg.filter (fun p => !(p.1 == sid))) = none := by
  induction reg with
  | nil => simp [List.lookup]
  | cons p rest ih =>
      by_cases h : p.1 = sid
      · simp [List.filter, h, ih]
      · have hb : (p.1 == sid) = false := beq_false_of_ne h
        have hb' : (sid == p.1) = false := beq_false_of_ne (fun hc => h hc.symm)
        simp [List.filter, hb, List.lookup, hb', ih]

theorem lookup_oncloseEvict_self (st : ServerState) (sid : String) (h0 : sid ≠ "") :
    List.lookup sid (oncloseEvict st (some sid)).reg = none := by
  unfold oncloseEvict
  by_cases h1 : (List.lookup sid st.reg).isSome
  · simp [h0, h1, lookup_filter_ne_self]
  · simp only [h0, if_false, h1, if_neg]
    simpa [← Option.not_isSome_iff_eq_none] using h1

theorem jsTruthy_some (sid : String) (h : sid ≠ "") : jsTruthy (some sid) = true := by
  simp [jsTruthy, h]

theorem lookup_isSome_mem {l : Registry} {a : String}
    (h : (List.lookup a l).isSome = true) : a ∈ l.map Prod.fst := by
  induction l with
  | nil => simp [List.lookup] at h
  | cons p rest ih =>
      by_cases hb : (a == p.1) = true
      · have : a = p.1 := eq_of_beq hb
        simp [this]
      · have hb' : (a == p.1) = false := by simpa using hb
        simp only [List.lookup, hb'] at h
        rw [List.map_cons]
        exact List.mem_cons_of_mem _ (ih h)

theorem genFresh_spec (gen : Nat → String) (reg : Registry) :
    ∀ fuel k sid k', genFresh gen reg k fuel = some (sid, k') →
      List.lookup sid reg = none ∧ ∃ j, sid = gen j := by
  intro fuel
  induction fuel with
  | zero => intro k sid k' h; simp [genFresh] at h
  | succ fuel ih =>
      intro k sid k' h
      unfold genFresh at h
      by_cases hc : (List.lookup (gen k) reg).isSome
      · rw [if_pos hc] at h
        exact ih (k + 1) sid k' h
      · rw [if_neg hc] at h
        have hpair : (gen k, k + 1) = (sid, k') := Option.some.inj h
        have h1 : gen k = sid := congrArg Prod.fst hpair
        constructor
        · rw [← h1]
          simpa [← Option.not_isSome_iff_eq_none] using hc
        · exact ⟨k, h1.symm⟩

theorem genFresh_none_all (gen : Nat → String) (reg : Registry) :
    ∀ fuel k, genFresh gen reg k fuel = none →
      ∀ j, j < fuel → (List.lookup (gen (k + j)) reg).isSome = true := by
  intro fuel
  induction fuel with
  | zero => intro k _ j hj; exact absurd hj (Nat.not_lt_zero j)
  | succ fuel ih =>
      intro k h j hj
      unfold genFresh at h
      by_cases hc : (List.lookup (gen k) reg).isSome
      · rw [if_pos hc] at h
        cases j with
        | zero => simpa using hc
        | succ j' =>
            have hstep := ih (k + 1) h j' (by omega)
            have heq : k + 1 + j' = k + (j' + 1) := by omega
            rwa [heq] at hstep
      · rw [if_neg hc] at h
        exact absurd h (by simp)

theorem genFresh_injective_isSome (gen : Nat → String) (reg : Registry)
    (k : Nat) (hgen : Function.Injective gen) :
    (genFresh gen reg k (reg.length + 1)).isSome = true := by
  by_contra hno
  have hnone : genFresh gen reg k (reg.length + 1) = none := by
    cases h : genFresh gen reg k (reg.length + 1) with
    | none => rfl
    | some v => rw [h] at hno; simp at hno
  have hall := genFresh_none_all gen reg (reg.length + 1) k hnone
  have hnd : ((List.range (reg.length + 1)).map (fun j => gen (k + j))).Nodup := by
    refine List.Nodup.map ?_ (List.nodup_range _)
    intro a b hab
    have := hgen hab
    omega
  have hsub : ((List.range (reg.length + 1)).map (fun j => gen (k + j))) ⊆
      reg.map Prod.fst := by
    intro x hx
    simp only [List.mem_map, List.mem_range] at hx
    obtain ⟨j, hj, rfl⟩ := hx
    exact lookup_isSome_mem (hall j hj)
  have hlen := (hnd.subperm hsub).length_le
  simp only [List.length_map, List.length_range] at hlen
  omega

/-! ### Claim C1 -/

/-- C1, counterexample: the claim as stated fails at two reachable
inputs on the empty registry `st0`.  (1) A POST whose `mcp-session-id`
header is present but empty — referencing no registered session — with an
initialize body is answered 200 and creates a session: JavaScript
truthiness makes the code treat the empty header as absent.  (2) A POST
whose header is the present, non-empty, unregistered value `"toString"`
finds the inherited `Object.prototype` property truthy, delegates,
throws, and is answered by the catch with HTTP 500 (`-32603`) — not the
claimed HTTP 400. -/
theorem C1_unknown_session_counterexample :
    (List.lookup "" st0.reg = none ∧
     (postMcp gen0 st0 (some "") initBody).1.status = 200 ∧
     (postMcp gen0 st0 (some "") initBody).2.reg ≠ []) ∧
    (List.lookup "toString" st0.reg = none ∧
     postMcp gen0 st0 (some "toString") callBody = (internalJson, st0)) := by
  decide

/-- C1 (amended): for every POST whose session-identifier header is
present, non-empty, references no registered session and does not name
an inherited `Object.prototype` property, and for every POST whose
header is absent or empty and whose body is not an initialize request,
the server responds with HTTP 400 and the structured JSON-RPC `-32000`
error, regardless of body content, and the state is unchanged, so no
session is created.  A present, non-empty, unregistered header that does
name an `Object.prototype` property (e.g. `"toString"`) instead passes
the truthy guard, the delegation throws, and the catch answers HTTP 500
with `-32603` — still creating no session. -/
theorem C1_unknown_session_400 (gen : Nat → String) (st : ServerState)
    (hdr : Option String) (body : Body) :
    (jsTruthy hdr = true → List.lookup (hdrVal hdr) st.reg = none →
      protoKey (hdrVal hdr) = false →
      postMcp gen st hdr body = (badRequestJson, st)) ∧
    (jsTruthy hdr = true → List.lookup (hdrVal hdr) st.reg = none →
      protoKey (hdrVal hdr) = true →
      postMcp gen st hdr body = (internalJson, st)) ∧
    (jsTruthy hdr = false → isInitializeRequest body = false →
      postMcp gen st hdr body = (badRequestJson, st)) := by
  refine ⟨?_, ?_, ?_⟩
  · intro ht hl hp
    unfold postMcp registryHit
    rw [ht, hl, hp]
    simp
  · intro ht hl hp
    unfold postMcp registryHit
    rw [ht, hl, hp]
    simp
  · intro hf hb
    unfold postMcp
    rw [hf, hb]
    simp

/-- C1 witness: the amended theorem applied to an unknown non-empty
non-prototype identifier with an initialize body, to the inherited
property name `"toString"`, and to an absent header with a
non-initialize body. -/
theorem C1_unknown_session_400_witness :
    postMcp gen0 st0 (some "zzz") initBody = (badRequestJson, st0) ∧
    postMcp gen0 st0 (some "toString") initBody = (internalJson, st0) ∧
    postMcp gen0 st0 none callBody = (badRequestJson, st0) :=
  ⟨(C1_unknown_session_400 gen0 st0 (some "zzz") initBody).1
      (by decide) (by decide) (by decide),
   (C1_unknown_session_400 gen0 st0 (some "toString") initBody).2.1
      (by decide) (by decide) (by decide),
   (C1_unknown_session_400 gen0 st0 none callBody).2.2 (by decide) (by decide)⟩

/-! ### Claim C3 -/

/-- C3: after a session's Transport closes — running the `onclose`
eviction for its identifier — the identifier is no longer in the
registry, and a later POST, GET or DELETE bearing it receives exactly the
unknown-session HTTP 400 response (`badRequestJson` resp. `invalidText`),
with the state unchanged; the responses reference no Transport
(`handledBy = none`), so the stale Transport is never reached and no
`SessionClosed`-style error is produced.  The hypotheses `sid ≠ ""` and
`protoKey sid = false` hold of every generated identifier: `randomUUID()`
produces non-empty lowercase-hex-and-dash strings, never an
`Object.prototype` property name. -/
theorem C3_closed_session_unknown (st : ServerState) (sid : String)
    (gen : Nat → String) (body : Body) (h0 : sid ≠ "")
    (hp : protoKey sid = false) :
    List.lookup sid (oncloseEvict st (some sid)).reg = none ∧
    postMcp gen (oncloseEvict st (some sid)) (some sid) body =
      (badRequestJson, oncloseEvict st (some sid)) ∧
    getMcp (oncloseEvict st (some sid)) (some sid) =
      .ok (invalidText, oncloseEvict st (some sid)) ∧
    deleteMcp (oncloseEvict st (some sid)) (some sid) =
      .ok (invalidText, oncloseEvict st (some sid)) ∧
    badRequestJson.handledBy = none ∧ invalidText.handledBy = none := by
  have hl := lookup_oncloseEvict_self st sid h0
  have ht := jsTruthy_some sid h0
  refine ⟨hl, ?_, ?_, ?_, rfl, rfl⟩
  · unfold postMcp registryHit
    rw [show hdrVal (some sid) = sid from rfl, ht, hl, hp]
    simp
  · unfold getMcp registryHit
    rw [show hdrVal (some sid) = sid from rfl, ht, hl, hp]
    simp
  · unfold deleteMcp registryHit
    rw [show hdrVal (some sid) = sid from rfl, ht, hl, hp]
    simp

/-- C3 witness: a registry holding one session `"aa"`; after its
Transport's `onclose` eviction all three verbs answer 400. -/
theorem C3_closed_session_unknown_witness :
    List.lookup "aa"
        (oncloseEvict ⟨[("aa", ⟨5, some "aa", false⟩)], 6, 2⟩ (some "aa")).reg = none ∧
    postMcp gen0 (oncloseEvict ⟨[("aa", ⟨5, some "aa", false⟩)], 6, 2⟩ (some "aa"))
        (some "aa") callBody =
      (badRequestJson, oncloseEvict ⟨[("aa", ⟨5, some "aa", false⟩)], 6, 2⟩ (some "aa")) ∧
    getMcp (oncloseEvict ⟨[("aa", ⟨5, some "aa", false⟩)], 6, 2⟩ (some "aa"))
        (some "aa") =
      .ok (invalidText, oncloseEvict ⟨[("aa", ⟨5, some "aa", false⟩)], 6, 2⟩ (some "aa")) ∧
    deleteMcp (oncloseEvict ⟨[("aa", ⟨5, some "aa", false⟩)], 6, 2⟩ (some "aa"))
        (some "aa") =
      .ok (invalidText, oncloseEvict ⟨[("aa", ⟨5, some "aa", false⟩)], 6, 2⟩ (some "aa")) ∧
    badRequestJson.handledBy = none ∧ invalidText.handledBy = none :=
  C3_closed_session_unknown ⟨[("aa", ⟨5, some "aa", false⟩)], 6, 2⟩ "aa" gen0 callBody
    (by decide) (by decide)

theorem gen0_injective : Function.Injective gen0 := by
  intro a b h
  have hd : List.replicate (a + 1) 'a' = List.replicate (b + 1) 'a' :=
    congrArg String.data h
  have := congrArg List.length hd
  simp only [List.length_replicate] at this
  omega

theorem gen0_ne_empty (n : Nat) : gen0 n ≠ "" := by
  intro h
  have hd : List.replicate (n + 1) 'a' = ([] : List Char) := congrArg String.data h
  simp at hd

/-! ### Claim C2 -/

/-- C2: a POST with no session header and an initialize body creates a
Transport `t`, registers it under a freshly generated identifier `sid`
that no registered session was using, returns HTTP 200 with `sid` in the
`Mcp-Session-Id` response header and the initialize response produced by
`t`; a subsequent POST bearing `sid` is handled by that same Transport
(same `tid`) with HTTP 200 and leaves the state unchanged. -/
theorem C2_initialize_registers (gen : Nat → String) (st : ServerState)
    (body body2 : Body) (hgen : Function.Injective gen)
    (hne : ∀ n, gen n ≠ "") (hinit : isInitializeRequest body = true) :
    ∃ sid t,
      (postMcp gen st none body).1 = ⟨200, none, some sid, some t.tid⟩ ∧
      List.lookup sid st.reg = none ∧
      List.lookup sid (postMcp gen st none body).2.reg = some t ∧
      postMcp gen (postMcp gen st none body).2 (some sid) body2 =
        (⟨200, none, none, some t.tid⟩, (postMcp gen st none body).2) := by
  have hs := genFresh_injective_isSome gen st.reg st.genIdx hgen
  obtain ⟨⟨sid, k'⟩, heq⟩ := Option.isSome_iff_exists.mp hs
  obtain ⟨hfresh, j, hj⟩ := genFresh_spec gen st.reg (st.reg.length + 1) st.genIdx sid k' heq
  have hsid_ne : sid ≠ "" := by rw [hj]; exact hne j
  have hpost : postMcp gen st none body =
      (⟨200, none, some sid, some st.nextTid⟩,
       ⟨(sid, ⟨st.nextTid, some sid, false⟩) :: st.reg, st.nextTid + 1, k'⟩) := by
    unfold postMcp initBranch
    rw [heq]
    simp [jsTruthy, hinit]
  refine ⟨sid, ⟨st.nextTid, some sid, false⟩, ?_, hfresh, ?_, ?_⟩
  · rw [hpost]
  · rw [hpost]
    simp [List.lookup]
  · rw [hpost]
    unfold postMcp
    have ht := jsTruthy_some sid hsid_ne
    rw [show hdrVal (some sid) = sid from rfl, ht]
    simp [registryHit, List.lookup]

/-- C2 witness: the theorem applied to the empty initial state, the
concrete generator `gen0` and an initialize body, followed by a tool
call. -/
theorem C2_initialize_registers_witness :
    ∃ sid t,
      (postMcp gen0 st0 none initBody).1 = ⟨200, none, some sid, some t.tid⟩ ∧
      List.lookup sid st0.reg = none ∧
      List.lookup sid (postMcp gen0 st0 none initBody).2.reg = some t ∧
      postMcp gen0 (postMcp gen0 st0 none initBody).2 (some sid) callBody =
        (⟨200, none, none, some t.tid⟩, (postMcp gen0 st0 none initBody).2) :=
  C2_initialize_registers gen0 st0 initBody callBody gen0_injective gen0_ne_empty
    (by decide)

/-! ### Claim C4 -/

/-- C4: identifier generation always lands on an identifier not already
registered — when the first generated id collides with a registered one,
the collision is detected and a different id is regenerated before
registration — the client-visible outcome of the initialize branch is a
plain HTTP 200 with no error code (the collision is never surfaced), and
every other registered session's binding is left untouched. -/
theorem C4_collision_recovered (gen : Nat → String) (st : ServerState)
    (hgen : Function.Injective gen) :
    ∃ sid k',
      genFresh gen st.reg st.genIdx (st.reg.length + 1) = some (sid, k') ∧
      List.lookup sid st.reg = none ∧
      ((List.lookup (gen st.genIdx) st.reg).isSome = true → sid ≠ gen st.genIdx) ∧
      (initBranch gen st).1.status = 200 ∧
      (initBranch gen st).1.rpcErrorCode = none ∧
      ∀ s, s ≠ sid → List.lookup s (initBranch gen st).2.reg = List.lookup s st.reg := by
  have hs := genFresh_injective_isSome gen st.reg st.genIdx hgen
  obtain ⟨⟨sid, k'⟩, heq⟩ := Option.isSome_iff_exists.mp hs
  obtain ⟨hfresh, _, _⟩ := genFresh_spec gen st.reg (st.reg.length + 1) st.genIdx sid k' heq
  refine ⟨sid, k', heq, hfresh, ?_, ?_, ?_, ?_⟩
  · intro hcol hcontra
    rw [hcontra] at hfresh
    rw [hfresh] at hcol
    simp at hcol
  · unfold initBranch
    rw [heq]
  · unfold initBranch
    rw [heq]
  · intro s hs'
    unfold initBranch
    rw [heq]
    have hb : (s == sid) = false := beq_false_of_ne hs'
    simp [List.lookup, hb]

/-- C4 witness: a registry already holding the very first identifier the
generator produces (`gen0 0`), so the first generation attempt collides
and a fresh identifier is regenerated. -/
theorem C4_collision_recovered_witness :
    ∃ sid k',
      genFresh gen0 (⟨[(gen0 0, ⟨0, some (gen0 0), false⟩)], 1, 0⟩ : ServerState).reg
          (⟨[(gen0 0, ⟨0, some (gen0 0), false⟩)], 1, 0⟩ : ServerState).genIdx
          ((⟨[(gen0 0, ⟨0, some (gen0 0), false⟩)], 1, 0⟩ : ServerState).reg.length + 1) =
        some (sid, k') ∧
      List.lookup sid (⟨[(gen0 0, ⟨0, some (gen0 0), false⟩)], 1, 0⟩ : ServerState).reg =
        none ∧
      ((List.lookup (gen0 (⟨[(gen0 0, ⟨0, some (gen0 0), false⟩)], 1, 0⟩ : ServerState).genIdx)
          (⟨[(gen0 0, ⟨0, some (gen0 0), false⟩)], 1, 0⟩ : ServerState).reg).isSome = true →
        sid ≠ gen0 (⟨[(gen0 0, ⟨0, some (gen0 0), false⟩)], 1, 0⟩ : ServerState).genIdx) ∧
      (initBranch gen0 ⟨[(gen0 0, ⟨0, some (gen0 0), false⟩)], 1, 0⟩).1.status = 200 ∧
      (initBranch gen0 ⟨[(gen0 0, ⟨0, some (gen0 0), false⟩)], 1, 0⟩).1.rpcErrorCode = none ∧
      ∀ s, s ≠ sid →
        List.lookup s (initBranch gen0 ⟨[(gen0 0, ⟨0, some (gen0 0), false⟩)], 1, 0⟩).2.reg =
          List.lookup s (⟨[(gen0 0, ⟨0, some (gen0 0), false⟩)], 1, 0⟩ : ServerState).reg :=
  C4_collision_recovered gen0 ⟨[(gen0 0, ⟨0, some (gen0 0), false⟩)], 1, 0⟩ gen0_injective

/-! ### Claim C5 — fault propagation at the route boundary -/

/-- C5 is violated by the code: the POST route's `try`/`catch` does catch
every fault — `postMcpFault` always returns `.ok`, and a fault on a
registered session with no headers sent is answered with the 500
(-32603) `internalJson` — but the GET and DELETE routes have no `try`/`catch`, so
the same fault escapes them as an unhandled rejection (`.error`), never
becoming the claimed HTTP 500 JSON-RPC response. -/
theorem C5_get_delete_fault_escapes :
    (∀ hr headersSent gen st hdr body,
      ∃ r, postMcpFault hr headersSent gen st hdr body = .ok r) ∧
    postMcpFault (.error ()) false gen0 stOne (some "aa") callBody =
      .ok (some internalJson, stOne) ∧
    getMcpFault (.error ()) stOne (some "aa") = .error () ∧
    deleteMcpFault (.error ()) stOne (some "aa") = .error () := by
  refine ⟨?_, rfl, rfl, rfl⟩
  intro hr headersSent gen st hdr body
  unfold postMcpFault
  repeat' split
  all_goals exact ⟨_, rfl⟩

/-! ### Claim C6 — SIGINT shutdown -/

theorem sigintLoop_spec (closeResult : String → Except Unit Unit) (reg : Registry) :
    sigintLoop closeResult reg = (reg.map Prod.fst, []) := by
  induction reg with
  | nil => rfl
  | cons p rest ih =>
      obtain ⟨sid, t⟩ := p
      unfold sigintLoop
      rw [ih]
      cases closeResult sid <;> simp

/-- C6: on SIGINT, a close is attempted on exactly the sessions
registered at that moment (in registry order — a close failure is
swallowed by `catch {}` and does not skip the remaining sessions, as the
result does not depend on `closeResult`), every identifier is removed,
and the exit point is reached with the registry already empty. -/
theorem C6_sigint_closes_everything (closeResult : String → Except Unit Unit)
    (st : ServerState) :
    (sigintHandler closeResult st).1 = st.reg.map Prod.fst ∧
    (sigintHandler closeResult st).2.1.reg = [] ∧
    (sigintHandler closeResult st).2.2 = true := by
  unfold sigintHandler
  rw [sigintLoop_spec]
  exact ⟨rfl, rfl, rfl⟩

/-! ### Claim C7 — argument validation before handler execution -/

theorem validateArgs_error_of_field_error (fs : List Field)
    (raw : List (String × Value)) (f : Field) (hf : f ∈ fs)
    (he : ∃ e, validateField f (List.lookup f.name raw) = .error e) :
    ∃ e, validateArgs fs raw = .error e := by
  induction fs with
  | nil => exact absurd hf (List.not_mem_nil f)
  | cons g gs ih =>
      obtain ⟨e, he⟩ := he
      rcases List.mem_cons.mp hf with rfl | hf'
      · refine ⟨e, ?_⟩
        unfold validateArgs
        rw [he]
      · unfold validateArgs
        cases hval : validateField g (List.lookup g.name raw) with
        | error e' => exact ⟨e', by cases validateArgs gs raw <;> rfl⟩
        | ok v? =>
            obtain ⟨e'', he''⟩ := ih hf'
            refine ⟨e'', ?_⟩
            rw [he'']
            cases v? <;> rfl

theorem validateArgs_missing_required (fs : List Field)
    (raw : List (String × Value)) (f : Field) (hf : f ∈ fs)
    (hd : f.dflt = none) (ho : f.optional = false)
    (hl : List.lookup f.name raw = none) :
    ∃ e, validateArgs fs raw = .error e := by
  apply validateArgs_error_of_field_error fs raw f hf
  exact ⟨f.name ++ ": required", by simp [validateField, hl, hd, ho]⟩

theorem validateArgs_wrong_type (fs : List Field)
    (raw : List (String × Value)) (f : Field) (v : Value) (hf : f ∈ fs)
    (hl : List.lookup f.name raw = some v) (hc : checkType f.type v = false) :
    ∃ e, validateArgs fs raw = .error e := by
  apply validateArgs_error_of_field_error fs raw f hf
  exact ⟨f.name ++ ": invalid", by simp [validateField, hl, hc]⟩

theorem validateArgs_default_applied (fs : List Field)
    (raw : List (String × Value)) :
    ∀ parsed f d0, validateArgs fs raw = .ok parsed → f ∈ fs →
      List.lookup f.name raw = none → f.dflt = some d0 →
      (f.name, d0) ∈ parsed := by
  induction fs with
  | nil => intro _ f _ _ hf; exact absurd hf (List.not_mem_nil f)
  | cons g gs ih =>
      intro parsed f d0 hok hf hl hd
      rcases List.mem_cons.mp hf with rfl | hf'
      · unfold validateArgs at hok
        have hv : validateField f (List.lookup f.name raw) = .ok (some d0) := by
          simp [validateField, hl, hd]
        rw [hv] at hok
        cases hrest : validateArgs gs raw with
        | error e =>
            rw [hrest] at hok
            exact absurd hok (by simp)
        | ok rest =>
            rw [hrest] at hok
            have : (f.name, d0) :: rest = parsed := by
              simpa using hok
            rw [← this]
            exact List.mem_cons_self _ _
      · unfold validateArgs at hok
        cases hval : validateField g (List.lookup g.name raw) with
        | error e =>
            rw [hval] at hok
            exact absurd hok (by simp)
        | ok v? =>
            rw [hval] at hok
            cases hrest : validateArgs gs raw with
            | error e =>
                rw [hrest] at hok
                cases v? <;> exact absurd hok (by simp)
            | ok rest =>
                rw [hrest] at hok
                have hmem := ih rest f d0 hrest hf' hl hd
                cases v? with
                | none =>
                    have : rest = parsed := by simpa using hok
                    rw [← this]
                    exact hmem
                | some v =>
                    have : (g.name, v) :: rest = parsed := by simpa using hok
                    rw [← this]
                    exact List.mem_cons_of_mem _ hmem

/-- C7: for every registered tool, validation runs before the handler.
If validation fails the result does not depend on the handler at all (the
handler is never called) and is an `InvalidArguments` error; a missing
required field, a present value of the wrong shape, or a value outside
the declared enumeration or array bounds each make validation fail; and
on success the parsed arguments handed to the handler contain the
declared default of every omitted defaulted field. -/
theorem C7_validation_before_handler (d : ToolDescr) (hd : d ∈ registeredTools)
    (raw : List (String × Value)) :
    (∀ e h1 h2, validateArgs d.schema raw = .error e →
        invoke d h1 raw = invoke d h2 raw ∧
        invoke d h1 raw = .error ("InvalidArguments: " ++ e)) ∧
    (∀ f, f ∈ d.schema → f.dflt = none → f.optional = false →
        List.lookup f.name raw = none →
        ∃ e, validateArgs d.schema raw = .error e) ∧
    (∀ f v, f ∈ d.schema → List.lookup f.name raw = some v →
        checkType f.type v = false →
        ∃ e, validateArgs d.schema raw = .error e) ∧
    (∀ parsed f d0, validateArgs d.schema raw = .ok parsed → f ∈ d.schema →
        List.lookup f.name raw = none → f.dflt = some d0 →
        (f.name, d0) ∈ parsed) := by
  have _ := hd
  refine ⟨?_, ?_, ?_, validateArgs_default_applied d.schema raw⟩
  · intro e h1 h2 he
    unfold invoke
    rw [he]
    exact ⟨rfl, rfl⟩
  · intro f hf hdf ho hl
    exact validateArgs_missing_required d.schema raw f hf hdf ho hl
  · intro f v hf hl hc
    exact validateArgs_wrong_type d.schema raw f v hf hl hc

/-- C7 witness: the `get_current_weather` registration with an empty
argument object — the required `city` field is missing, so validation
fails; and with `units` present but outside the enumeration. -/
theorem C7_validation_before_handler_witness :
    (∃ e, validateArgs
        (⟨"get_current_weather", "Get current weather for a city.",
          [⟨"city", .str, none, false⟩, unitsField,
           ⟨"lang", .str, some (.vStr "ru"), false⟩]⟩ : ToolDescr).schema [] =
      .error e) ∧
    (∃ e, validateArgs
        (⟨"get_current_weather", "Get current weather for a city.",
          [⟨"city", .str, none, false⟩, unitsField,
           ⟨"lang", .str, some (.vStr "ru"), false⟩]⟩ : ToolDescr).schema
        [("city", .vStr "Moscow"), ("units", .vStr "kelvin")] = .error e) :=
  ⟨(C7_validation_before_handler _ (by decide) []).2.1
      ⟨"city", .str, none, false⟩ (by decide) rfl rfl rfl,
   (C7_validation_before_handler _ (by decide)
        [("city", .vStr "Moscow"), ("units", .vStr "kelvin")]).2.2.1
      unitsField (.vStr "kelvin") (by decide) (by decide) (by decide)⟩

/-! ### Claim C8 — multi-city fetch skips failures -/

theorem getMultiCityWeather_eq_filterMap
    (fetchCity : String → Except Unit CityWeatherData) (cities : List String) :
    getMultiCityWeather fetchCity cities =
      cities.filterMap (fun c => (fetchCity c).toOption) := by
  induction cities with
  | nil => rfl
  | cons c cs ih =>
      unfold getMultiCityWeather
      cases h : fetchCity c <;>
        simp [List.filterMap_cons, h, Except.toOption, ih]

/-- C8: `getMultiCityWeather` never propagates a single city's fetch
failure — it returns exactly the data of the cities whose fetch
succeeded, in input order (the `filterMap` of the successes), its length
never exceeds the input's, and it is the empty list — not an error —
when every city's fetch fails. -/
theorem C8_multi_city_skips_failures
    (fetchCity : String → Except Unit CityWeatherData) (cities : List String) :
    getMultiCityWeather fetchCity cities =
      cities.filterMap (fun c => (fetchCity c).toOption) ∧
    (getMultiCityWeather fetchCity cities).length ≤ cities.length ∧
    ((∀ c ∈ cities, fetchCity c = .error ()) →
      getMultiCityWeather fetchCity cities = []) := by
  refine ⟨getMultiCityWeather_eq_filterMap fetchCity cities, ?_, ?_⟩
  · rw [getMultiCityWeather_eq_filterMap]
    exact List.length_filterMap_le _ _
  · intro hall
    rw [getMultiCityWeather_eq_filterMap]
    refine List.filterMap_eq_nil_iff.mpr ?_
    intro c hc
    rw [hall c hc]
    rfl

/-- C8 witness: two cities whose fetches both fail yield the empty
list. -/
theorem C8_multi_city_skips_failures_witness :
    getMultiCityWeather fetchFail ["x", "y"] =
      (["x", "y"] : List String).filterMap (fun c => (fetchFail c).toOption) ∧
    (getMultiCityWeather fetchFail ["x", "y"]).length ≤
      (["x", "y"] : List String).length ∧
    getMultiCityWeather fetchFail ["x", "y"] = [] :=
  ⟨(C8_multi_city_skips_failures fetchFail ["x", "y"]).1,
   (C8_multi_city_skips_failures fetchFail ["x", "y"]).2.1,
   (C8_multi_city_skips_failures fetchFail ["x", "y"]).2.2 (fun _ _ => rfl)⟩

/-! ### Claim C10 — keyless trend analysis -/

theorem foldl_select_mem (f : CityWeatherData → CityWeatherData → CityWeatherData)
    (hf : ∀ a b, f a b = a ∨ f a b = b) :
    ∀ (ws : List CityWeatherData) (w : CityWeatherData), ws.foldl f w ∈ w :: ws := by
  intro ws
  induction ws with
  | nil => intro w; simp
  | cons b bs ih =>
      intro w
      rw [List.foldl_cons]
      rcases List.mem_cons.mp (ih (f w b)) with h1 | h1
      · rcases hf w b with h2 | h2
        · rw [h1, h2]; exact List.mem_cons_self _ _
        · rw [h1, h2]; exact List.mem_cons_of_mem _ (List.mem_cons_self _ _)
      · exact List.mem_cons_of_mem _ (List.mem_cons_of_mem _ h1)

theorem foldl_hot_bound :
    ∀ (ws : List CityWeatherData) (w x : CityWeatherData), x ∈ w :: ws →
      x.temp ≤ (ws.foldl (fun a b => if a.temp > b.temp then a else b) w).temp := by
  intro ws
  induction ws with
  | nil =>
      intro w x hx
      rcases List.mem_cons.mp hx with rfl | hx
      · exact le_refl _
      · exact absurd hx (List.not_mem_nil x)
  | cons b bs ih =>
      intro w x hx
      rw [List.foldl_cons]
      have hwb : w.temp ≤ (if w.temp > b.temp then w else b).temp ∧
          b.temp ≤ (if w.temp > b.temp then w else b).temp := by
        by_cases h : w.temp > b.temp
        · rw [if_pos h]; exact ⟨le_refl _, le_of_lt h⟩
        · rw [if_neg h]; exact ⟨le_of_not_lt h, le_refl _⟩
      have hacc := ih (if w.temp > b.temp then w else b)
        (if w.temp > b.temp then w else b) (List.mem_cons_self _ _)
      rcases List.mem_cons.mp hx with rfl | hx
      · exact le_trans hwb.1 hacc
      · rcases List.mem_cons.mp hx with rfl | hx
        · exact le_trans hwb.2 hacc
        · exact ih _ x (List.mem_cons_of_mem _ hx)

theorem foldl_cold_bound :
    ∀ (ws : List CityWeatherData) (w x : CityWeatherData), x ∈ w :: ws →
      (ws.foldl (fun a b => if a.temp < b.temp then a else b) w).temp ≤ x.temp := by
  intro ws
  induction ws with
  | nil =>
      intro w x hx
      rcases List.mem_cons.mp hx with rfl | hx
      · exact le_refl _
      · exact absurd hx (List.not_mem_nil x)
  | cons b bs ih =>
      intro w x hx
      rw [List.foldl_cons]
      have hwb : (if w.temp < b.temp then w else b).temp ≤ w.temp ∧
          (if w.temp < b.temp then w else b).temp ≤ b.temp := by
        by_cases h : w.temp < b.temp
        · rw [if_pos h]; exact ⟨le_refl _, le_of_lt h⟩
        · rw [if_neg h]; exact ⟨le_of_not_lt h, le_refl _⟩
      have hacc := ih (if w.temp < b.temp then w else b)
        (if w.temp < b.temp then w else b) (List.mem_cons_self _ _)
      rcases List.mem_cons.mp hx with rfl | hx
      · exact le_trans hacc hwb.1
      · rcases List.mem_cons.mp hx with rfl | hx
        · exact le_trans hacc hwb.2
        · exact ih _ x (List.mem_cons_of_mem _ hx)

theorem foldl_add_temp (l : List CityWeatherData) :
    ∀ init : ℚ, l.foldl (fun a b => a + b.temp) init =
      init + (l.map (fun w => w.temp)).sum := by
  induction l with
  | nil => intro init; simp
  | cons w ws ih =>
      intro init
      rw [List.foldl_cons, ih, List.map_cons, List.sum_cons]
      ring

/-- C10: with no OpenRouter key, `analyzeWeatherTrends` on a non-empty
list returns a summary whose hottest entry is a listed city of maximal
temperature, whose coldest entry is a listed city of minimal temperature,
and whose average is the arithmetic mean of the temperatures — total for
every non-empty input; on the empty list the argument-less `reduce`
throws, and the `analyze_weather_trends` tool handler does not guard
against this: a schema-valid city list (length ≥ 2) whose fetches all
fail reaches the throwing call with an empty list. -/
theorem C10_keyless_trends (ws : List CityWeatherData) :
    (ws ≠ [] → ∃ s, analyzeWeatherTrendsNoKey ws = .ok s ∧
        s.hottest ∈ ws ∧ (∀ w ∈ ws, w.temp ≤ s.hottest.temp) ∧
        s.coldest ∈ ws ∧ (∀ w ∈ ws, s.coldest.temp ≤ w.temp) ∧
        s.avgTemp = (ws.map (fun w => w.temp)).sum / (ws.length : ℚ)) ∧
    analyzeWeatherTrendsNoKey [] = .error () ∧
    (∃ fetchCity cities, 2 ≤ (cities : List String).length ∧
        analyzeTrendsTool fetchCity cities = .error ()) := by
  refine ⟨?_, rfl, ⟨fetchFail, ["x", "y"], by decide, rfl⟩⟩
  intro hne
  match ws, hne with
  | w :: rest, _ =>
      refine ⟨_, rfl, ?_, ?_, ?_, ?_, ?_⟩
      · exact foldl_select_mem _ (fun a b => by
          by_cases h : a.temp > b.temp
          · exact Or.inl (if_pos h)
          · exact Or.inr (if_neg h)) rest w
      · intro x hx
        exact foldl_hot_bound rest w x hx
      · exact foldl_select_mem _ (fun a b => by
          by_cases h : a.temp < b.temp
          · exact Or.inl (if_pos h)
          · exact Or.inr (if_neg h)) rest w
      · intro x hx
        exact foldl_cold_bound rest w x hx
      · show ((w :: rest).foldl (fun a b => a + b.temp) 0) / (((w :: rest).length : ℕ) : ℚ) = _
        rw [foldl_add_temp, zero_add]

/-- C10 witness: the theorem applied to a concrete two-city list, with
the non-emptiness hypothesis discharged. -/
theorem C10_keyless_trends_witness :
    ∃ s, analyzeWeatherTrendsNoKey
        [⟨"A", "RU", 10, 9, 50, 1000, 3, "clear", 0, 10⟩,
         ⟨"B", "RU", 20, 19, 40, 1010, 2, "sun", 1, 9⟩] = .ok s ∧
      s.hottest ∈ ([⟨"A", "RU", 10, 9, 50, 1000, 3, "clear", 0, 10⟩,
         ⟨"B", "RU", 20, 19, 40, 1010, 2, "sun", 1, 9⟩] : List CityWeatherData) ∧
      (∀ w ∈ ([⟨"A", "RU", 10, 9, 50, 1000, 3, "clear", 0, 10⟩,
         ⟨"B", "RU", 20, 19, 40, 1010, 2, "sun", 1, 9⟩] : List CityWeatherData),
        w.temp ≤ s.hottest.temp) ∧
      s.coldest ∈ ([⟨"A", "RU", 10, 9, 50, 1000, 3, "clear", 0, 10⟩,
         ⟨"B", "RU", 20, 19, 40, 1010, 2, "sun", 1, 9⟩] : List CityWeatherData) ∧
      (∀ w ∈ ([⟨"A", "RU", 10, 9, 50, 1000, 3, "clear", 0, 10⟩,
         ⟨"B", "RU", 20, 19, 40, 1010, 2, "sun", 1, 9⟩] : List CityWeatherData),
        s.coldest.temp ≤ w.temp) ∧
      s.avgTemp = (([⟨"A", "RU", 10, 9, 50, 1000, 3, "clear", 0, 10⟩,
         ⟨"B", "RU", 20, 19, 40, 1010, 2, "sun", 1, 9⟩] : List CityWeatherData).map
           (fun w => w.temp)).sum /
        ((([⟨"A", "RU", 10, 9, 50, 1000, 3, "clear", 0, 10⟩,
         ⟨"B", "RU", 20, 19, 40, 1010, 2, "sun", 1, 9⟩] : List CityWeatherData)).length : ℚ) :=
  (C10_keyless_trends
    [⟨"A", "RU", 10, 9, 50, 1000, 3, "clear", 0, 10⟩,
     ⟨"B", "RU", 20, 19, 40, 1010, 2, "sun", 1, 9⟩]).1 (by decide)

/-! ### Claim C9 — report file paths stay inside the reports directory -/

theorem sanitizeFilename_allowed (s : String) :
    ∀ c ∈ (sanitizeFilename s).data, allowedChar c = true := by
  intro c hc
  have hc' : c ∈ s.data.map (fun c => if allowedChar c then c else '_') := hc
  rw [List.mem_map] at hc'
  obtain ⟨c', _, rfl⟩ := hc'
  by_cases h : allowedChar c' = true
  · rw [if_pos h]; exact h
  · rw [if_neg h]; decide

theorem sanitizeTimestamp_chars (ts : String) :
    ∀ c ∈ (sanitizeTimestamp ts).data,
      (c = '-' ∨ c ∈ ts.data) ∧ c ≠ ':' ∧ c ≠ '.' := by
  intro c hc
  have hc' : c ∈ ts.data.map (fun c => if c == ':' || c == '.' then '-' else c) := hc
  rw [List.mem_map] at hc'
  obtain ⟨c', hmem, rfl⟩ := hc'
  by_cases h : (c' == ':' || c' == '.') = true
  · rw [if_pos h]
    exact ⟨Or.inl rfl, by decide, by decide⟩
  · rw [if_neg h]
    refine ⟨Or.inr hmem, ?_, ?_⟩
    · intro hx; apply h; rw [hx]; rfl
    · intro hx; apply h; rw [hx]; rfl

theorem underscore_mem_base (filename isoTs format : String) :
    '_' ∈ (reportBaseName filename isoTs format).data := by
  show '_' ∈ ((sanitizeFilename filename ++ "_" ++ sanitizeTimestamp isoTs).data ++
    (if format == "json" then ".json" else ".md").data)
  apply List.mem_append.mpr
  left
  show '_' ∈ ((sanitizeFilename filename ++ "_").data ++ (sanitizeTimestamp isoTs).data)
  apply List.mem_append.mpr
  left
  show '_' ∈ ((sanitizeFilename filename).data ++ ['_'])
  apply List.mem_append.mpr
  right
  exact List.mem_singleton.mpr rfl

/-- C9: the path returned by `saveWeatherReport` is, for every content,
filename, format and (slash-free, as `toISOString` always produces)
timestamp, exactly `DATA_DIR`, a separator, and a base name built as the
sanitized filename, an underscore, the `:`/`.`-cleaned timestamp and the
format-chosen extension; every character the filename contributes is in
`[a-zA-Z0-9_-]`, no `:` or `.` survives in the timestamp part, the base
name contains no `/` and is neither `.` nor `..` — so no filename (even
one containing `/` or `..`) can name a file outside the reports
directory. -/
theorem C9_report_path_confined (content filename isoTs format : String)
    (hts : '/' ∉ isoTs.data) :
    saveWeatherReportPath content filename isoTs format =
      DATA_DIR ++ "/" ++ reportBaseName filename isoTs format ∧
    reportBaseName filename isoTs format =
      sanitizeFilename filename ++ "_" ++ sanitizeTimestamp isoTs ++
        (if format == "json" then ".json" else ".md") ∧
    (∀ c ∈ (sanitizeFilename filename).data, allowedChar c = true) ∧
    (':' ∉ (sanitizeTimestamp isoTs).data ∧ '.' ∉ (sanitizeTimestamp isoTs).data) ∧
    '/' ∉ (reportBaseName filename isoTs format).data ∧
    (reportBaseName filename isoTs format ≠ "." ∧
     reportBaseName filename isoTs format ≠ "..") := by
  refine ⟨rfl, rfl, sanitizeFilename_allowed filename, ⟨?_, ?_⟩, ?_, ?_, ?_⟩
  · intro h
    exact ((sanitizeTimestamp_chars isoTs ':' h).2.1) rfl
  · intro h
    exact ((sanitizeTimestamp_chars isoTs '.' h).2.2) rfl
  · intro h
    have h' : '/' ∈ ((sanitizeFilename filename ++ "_" ++ sanitizeTimestamp isoTs).data ++
        (if format == "json" then ".json" else ".md").data) := h
    rcases List.mem_append.mp h' with h1 | h1
    · have h1' : '/' ∈ ((sanitizeFilename filename ++ "_").data ++
          (sanitizeTimestamp isoTs).data) := h1
      rcases List.mem_append.mp h1' with h2 | h2
      · have h2' : '/' ∈ ((sanitizeFilename filename).data ++ ['_']) := h2
        rcases List.mem_append.mp h2' with h3 | h3
        · have := sanitizeFilename_allowed filename '/' h3
          exact absurd this (by decide)
        · exact absurd h3 (by decide)
      · rcases (sanitizeTimestamp_chars isoTs '/' h2).1 with h4 | h4
        · exact absurd h4 (by decide)
        · exact hts h4
    · by_cases hf : (format == "json") = true
      · rw [if_pos hf] at h1
        exact absurd h1 (by decide)
      · rw [if_neg hf] at h1
        exact absurd h1 (by decide)
  · intro h
    have hm := underscore_mem_base filename isoTs format
    rw [h] at hm
    exact absurd hm (by decide)
  · intro h
    have hm := underscore_mem_base filename isoTs format
    rw [h] at hm
    exact absurd hm (by decide)

/-- C9 witness: the theorem applied to a traversal-attempting filename
`"../../etc/passwd"` and a concrete ISO timestamp; the resulting base
name has no slash and is not `..`. -/
theorem C9_report_path_confined_witness :
    '/' ∉ (reportBaseName "../../etc/passwd" "2025-01-02T03:04:05.678Z" "json").data ∧
    reportBaseName "../../etc/passwd" "2025-01-02T03:04:05.678Z" "json" ≠ ".." :=
  ⟨(C9_report_path_confined "report" "../../etc/passwd" "2025-01-02T03:04:05.678Z"
      "json" (by decide)).2.2.2.2.1,
   (C9_report_path_confined "report" "../../etc/passwd" "2025-01-02T03:04:05.678Z"
      "json" (by decide)).2.2.2.2.2.2⟩

end WeatherServer
